import Mathlib

/-!
Verification of the Shabbat Times API backend (src/main.py).

The file shallowly embeds the data model and the operations of the
program: the upstream item normalization loop inside
`fetch_shabbat_times_from_hebcal`, the static city catalog `CITIES`,
the slug lookup in `get_shabbat_times`, and the error behaviour of the
upstream HTTP call.  Python `dict.get` results are modelled as
`Option String`; Python exceptions are modelled with an explicit
`PyError` sum carried in `Except`.
-/

namespace ShabbatAPI

/-- An upstream item as consumed via `item.get("category")`,
`item.get("title")`, `item.get("hebrew")`: each field may be absent. -/
structure Item where
  category : Option String
  title : Option String
  hebrew : Option String
deriving DecidableEq, Repr

/-- The three accumulator variables `candle`, `havdalah`, `parsha` of the
normalization loop, all initialized to `None`. -/
structure NormState where
  candle : Option String
  havdalah : Option String
  parsha : Option String
deriving DecidableEq, Repr

/-- Characters strictly after the first `':'` of the list (`[]` when no
colon occurs). -/
def afterColonChars : List Char → List Char
  | [] => []
  | c :: cs => if c = ':' then cs else afterColonChars cs

/-- Python `s.split(":", 1)[1]`: everything after the first colon.  The
program only evaluates it on strings that contain a colon. -/
def afterFirstColon (s : String) : String :=
  ⟨afterColonChars s.data⟩

/-- Whitespace stripped from both ends of a character list. -/
def stripChars (l : List Char) : List Char :=
  ((l.dropWhile Char.isWhitespace).reverse.dropWhile Char.isWhitespace).reverse

/-- Python `s.strip()`: surrounding whitespace removed. -/
def pyStrip (s : String) : String :=
  ⟨stripChars s.data⟩

/-- Python `":" in s`. -/
def pyContainsColon (s : String) : Bool :=
  s.data.any (fun c => c = ':')

/-- Python truthiness of a string: non-empty. -/
def pyTruthy (s : String) : Bool :=
  !s.data.isEmpty

/-- Python `a or b` on two optional strings: `b` unless `a` is a
non-empty (truthy) string. -/
def pyOr (a b : Option String) : Option String :=
  match a with
  | some s => if pyTruthy s then some s else b
  | none => b

/-- The `candles` branch body: `candle = item.get("title")` followed by
`if candle and ":" in candle: candle = candle.split(":", 1)[1].strip()`. -/
def candlesExtract : Option String → Option String
  | none => none
  | some c => if pyTruthy c && pyContainsColon c then some (pyStrip (afterFirstColon c)) else some c

/-- First `if` of the loop body:
`if cat == "candles" and candle is None`. -/
def candlesStep (st : NormState) (item : Item) : NormState :=
  if item.category = some "candles" ∧ st.candle = none then
    { st with candle := candlesExtract item.title }
  else st

/-- Second `if` of the loop body:
`if cat == "havdalah" and havdalah is None`, where `havdalah` is only
assigned when `hv` is truthy and contains a colon. -/
def havdalahStep (st : NormState) (item : Item) : NormState :=
  if item.category = some "havdalah" ∧ st.havdalah = none then
    match item.title with
    | some hv =>
        if pyTruthy hv && pyContainsColon hv then
          { st with havdalah := some (pyStrip (afterFirstColon hv)) }
        else st
    | none => st
  else st

/-- Third `if` of the loop body:
`if cat == "parashat" and parsha is None: parsha = item.get("hebrew") or item.get("title")`. -/
def parashatStep (st : NormState) (item : Item) : NormState :=
  if item.category = some "parashat" ∧ st.parsha = none then
    { st with parsha := pyOr item.hebrew item.title }
  else st

/-- One iteration of `for item in data.get("items", [])`: the three
`if` statements run in sequence on the same item. -/
def processItem (st : NormState) (item : Item) : NormState :=
  parashatStep (havdalahStep (candlesStep st item) item) item

/-- The loop start state: `candle = None; havdalah = None; parsha = None`. -/
def initState : NormState := ⟨none, none, none⟩

/-- The whole normalization loop over the upstream items list. -/
def normalizeItems (items : List Item) : NormState :=
  items.foldl processItem initState

/-- The `havdalah` branch extraction, for stating properties: a value
is produced only when the title is present, truthy and contains a
colon; otherwise nothing is assigned. -/
def havdalahExtract : Option String → Option String
  | none => none
  | some hv => if pyTruthy hv && pyContainsColon hv then some (pyStrip (afterFirstColon hv)) else none

/-- A city record.  Latitude and longitude are decimal degrees scaled
by 10^4 and stored as integers (`407128` stands for `40.7128`), keeping
catalog equality decidable; no claim depends on their numeric use. -/
structure City where
  slug : String
  name : String
  country : String
  latitude : Int
  longitude : Int
  tzid : String
deriving DecidableEq, Repr

/-- The curated catalog `CITIES`, in declared order. -/
def CITIES : List City := [
  ⟨"new-york", "New York", "USA", 407128, -740060, "America/New_York"⟩,
  ⟨"los-angeles", "Los Angeles", "USA", 340522, -1182437, "America/Los_Angeles"⟩,
  ⟨"miami", "Miami", "USA", 257617, -801918, "America/New_York"⟩,
  ⟨"london", "London", "UK", 515072, -1276, "Europe/London"⟩,
  ⟨"paris", "Paris", "France", 488566, 23522, "Europe/Paris"⟩,
  ⟨"jerusalem", "Jerusalem", "Israel", 317683, 352137, "Asia/Jerusalem"⟩,
  ⟨"tel-aviv", "Tel Aviv", "Israel", 320853, 347818, "Asia/Jerusalem"⟩,
  ⟨"toronto", "Toronto", "Canada", 436532, -793832, "America/Toronto"⟩,
  ⟨"montreal", "Montreal", "Canada", 455019, -735674, "America/Toronto"⟩,
  ⟨"sydney", "Sydney", "Australia", -338688, 1512093, "Australia/Sydney"⟩,
  ⟨"melbourne", "Melbourne", "Australia", -378136, 1449631, "Australia/Melbourne"⟩,
  ⟨"johannesburg", "Johannesburg", "South Africa", -262041, 280473, "Africa/Johannesburg"⟩,
  ⟨"mexico-city", "Mexico City", "Mexico", 194326, -991332, "America/Mexico_City"⟩,
  ⟨"buenos-aires", "Buenos Aires", "Argentina", -346037, -583816, "America/Argentina/Buenos_Aires"⟩,
  ⟨"sao-paulo", "São Paulo", "Brazil", -235505, -466333, "America/Sao_Paulo"⟩,
  ⟨"madrid", "Madrid", "Spain", 404168, -37038, "Europe/Madrid"⟩,
  ⟨"rome", "Rome", "Italy", 419028, 124964, "Europe/Rome"⟩,
  ⟨"moscow", "Moscow", "Russia", 557558, 376173, "Europe/Moscow"⟩,
  ⟨"singapore", "Singapore", "Singapore", 13521, 1038198, "Asia/Singapore"⟩,
  ⟨"hong-kong", "Hong Kong", "China", 223193, 1141694, "Asia/Hong_Kong"⟩]

/-- The slug lookup `next((c for c in CITIES if c.slug == city), None)`. -/
def findCity (slug : String) : Option City :=
  CITIES.find? (fun c => c.slug == slug)

/-- The decoded upstream JSON body: the client only consumes the
`items` key, through `data.get("items", [])`, so the body is modelled
as that optional list. -/
structure Payload where
  items : Option (List Item)
deriving DecidableEq, Repr

/-- An upstream HTTP response as seen by the client code:
`r.status_code` and the decoded `r.json()` body. -/
structure Response where
  status_code : Nat
  body : Payload
deriving DecidableEq, Repr

/-- A Python exception escaping a handler: a raised
`HTTPException(status_code, detail)`, or an uncaught exception from the
`requests` library (timeout or network/transport failure). -/
inductive PyError where
  | httpException (status : Nat) (detail : String)
  | requestException
deriving DecidableEq, Repr

/-- The `ShabbatTimes` response model; `date` is kept as an opaque
string standing for `date.today()`. -/
structure ShabbatTimes where
  city : City
  date : String
  parsha : Option String
  candle_lighting : Option String
  havdalah : Option String
  source : String
  raw : Payload
deriving DecidableEq, Repr

/-- `fetch_shabbat_times_from_hebcal`.  The outcome of the single
`requests.get(url, timeout=10)` call is passed in as `resp`: `.ok r`
when the call returned a response, `.error ()` when it raised on a
timeout or network failure.  The source wraps that call in no
`try`/`except`, so in the latter case the exception propagates
unhandled, modelled by `PyError.requestException`.  `today` stands for
`date.today()`. -/
def fetch_shabbat_times_from_hebcal (city : City) (today : String)
    (resp : Except Unit Response) : Except PyError ShabbatTimes :=
  match resp with
  | .error _ => .error PyError.requestException
  | .ok r =>
      if r.status_code ≠ 200 then
        .error (PyError.httpException 502 "Upstream provider error")
      else
        let data := r.body
        let st := normalizeItems (data.items.getD [])
        .ok { city := city, date := today, parsha := st.parsha,
              candle_lighting := st.candle, havdalah := st.havdalah,
              source := "hebcal.com", raw := data }

/-- The `GET /api/shabbat` handler `get_shabbat_times`, paired with the
number of outbound upstream calls the request performs: the body holds
a single `requests.get` call site, reached only after the slug
resolves, and no retry loop. -/
def get_shabbat_times (city : String) (today : String)
    (resp : Except Unit Response) : Except PyError ShabbatTimes × Nat :=
  match findCity city with
  | none => (.error (PyError.httpException 404 "City not found"), 0)
  | some cityObj => (fetch_shabbat_times_from_hebcal cityObj today resp, 1)

/-- The `GET /api/cities` handler `list_cities` returns the catalog. -/
def list_cities : List City := CITIES

/-- Claim C1: on the three-item example list the normalizer yields
candle_lighting = "7:01pm", havdalah = "8:15pm", and parsha is the
Hebrew label "פרשת נח" (preferred over the title). -/
theorem C1_example_normalization :
    normalizeItems
      [⟨some "candles", some "Candle lighting: 7:01pm", none⟩,
       ⟨some "havdalah", some "Havdalah: 8:15pm", none⟩,
       ⟨some "parashat", some "Parshat Noach", some "פרשת נח"⟩] =
      ⟨some "7:01pm", some "8:15pm", some "פרשת נח"⟩ := by
  rfl

theorem candlesStep_havdalah (st : NormState) (it : Item) :
    (candlesStep st it).havdalah = st.havdalah := by
  unfold candlesStep; split <;> rfl

theorem candlesStep_parsha (st : NormState) (it : Item) :
    (candlesStep st it).parsha = st.parsha := by
  unfold candlesStep; split <;> rfl

theorem havdalahStep_candle (st : NormState) (it : Item) :
    (havdalahStep st it).candle = st.candle := by
  unfold havdalahStep
  split
  · split
    · split <;> rfl
    · rfl
  · rfl

theorem havdalahStep_parsha (st : NormState) (it : Item) :
    (havdalahStep st it).parsha = st.parsha := by
  unfold havdalahStep
  split
  · split
    · split <;> rfl
    · rfl
  · rfl

theorem parashatStep_candle (st : NormState) (it : Item) :
    (parashatStep st it).candle = st.candle := by
  unfold parashatStep; split <;> rfl

theorem parashatStep_havdalah (st : NormState) (it : Item) :
    (parashatStep st it).havdalah = st.havdalah := by
  unfold parashatStep; split <;> rfl

theorem processItem_candle (st : NormState) (it : Item) :
    (processItem st it).candle = (candlesStep st it).candle := by
  unfold processItem
  rw [parashatStep_candle, havdalahStep_candle]

theorem candlesStep_candle_stable (st : NormState) (it : Item) (h : st.candle ≠ none) :
    (candlesStep st it).candle = st.candle := by
  unfold candlesStep
  split
  case isTrue hc => exact absurd hc.2 h
  case isFalse hc => rfl

theorem processItem_candle_stable (st : NormState) (it : Item) (h : st.candle ≠ none) :
    (processItem st it).candle = st.candle := by
  rw [processItem_candle]
  exact candlesStep_candle_stable st it h

theorem havdalahStep_havdalah_stable (st : NormState) (it : Item) (h : st.havdalah ≠ none) :
    (havdalahStep st it).havdalah = st.havdalah := by
  unfold havdalahStep
  split
  case isTrue hc => exact absurd hc.2 h
  case isFalse hc => rfl

theorem processItem_havdalah_stable (st : NormState) (it : Item) (h : st.havdalah ≠ none) :
    (processItem st it).havdalah = st.havdalah := by
  unfold processItem
  rw [parashatStep_havdalah]
  have h1 : (candlesStep st it).havdalah = st.havdalah := candlesStep_havdalah st it
  rw [havdalahStep_havdalah_stable (candlesStep st it) it (by rw [h1]; exact h), h1]

theorem parashatStep_parsha_stable (st : NormState) (it : Item) (h : st.parsha ≠ none) :
    (parashatStep st it).parsha = st.parsha := by
  unfold parashatStep
  split
  case isTrue hc => exact absurd hc.2 h
  case isFalse hc => rfl

theorem processItem_parsha_stable (st : NormState) (it : Item) (h : st.parsha ≠ none) :
    (processItem st it).parsha = st.parsha := by
  unfold processItem
  have h1 : (havdalahStep (candlesStep st it) it).parsha = st.parsha := by
    rw [havdalahStep_parsha, candlesStep_parsha]
  rw [parashatStep_parsha_stable _ it (by rw [h1]; exact h), h1]

theorem foldl_candle_stable (l : List Item) : ∀ st : NormState, st.candle ≠ none →
    (l.foldl processItem st).candle = st.candle := by
  induction l with
  | nil => intro st h; rfl
  | cons it rest ih =>
      intro st h
      rw [List.foldl_cons,
        ih (processItem st it) (by rw [processItem_candle_stable st it h]; exact h),
        processItem_candle_stable st it h]

theorem foldl_havdalah_stable (l : List Item) : ∀ st : NormState, st.havdalah ≠ none →
    (l.foldl processItem st).havdalah = st.havdalah := by
  induction l with
  | nil => intro st h; rfl
  | cons it rest ih =>
      intro st h
      rw [List.foldl_cons,
        ih (processItem st it) (by rw [processItem_havdalah_stable st it h]; exact h),
        processItem_havdalah_stable st it h]

theorem foldl_parsha_stable (l : List Item) : ∀ st : NormState, st.parsha ≠ none →
    (l.foldl processItem st).parsha = st.parsha := by
  induction l with
  | nil => intro st h; rfl
  | cons it rest ih =>
      intro st h
      rw [List.foldl_cons,
        ih (processItem st it) (by rw [processItem_parsha_stable st it h]; exact h),
        processItem_parsha_stable st it h]

theorem candlesExtract_ne_none (t : String) : candlesExtract (some t) ≠ none := by
  show (if pyTruthy t && pyContainsColon t then some (pyStrip (afterFirstColon t)) else some t) ≠ none
  split <;> simp

theorem processItem_fills_candle (st : NormState) (it : Item)
    (hcat : it.category = some "candles") (hcnd : st.candle = none) :
    (processItem st it).candle = candlesExtract it.title := by
  rw [processItem_candle]
  unfold candlesStep
  rw [if_pos ⟨hcat, hcnd⟩]

/-- Claim C2 (counterexample): with a first "candles" item whose title
is absent, the normalizer keeps the second "candles" item's extracted
value rather than the first item's extracted value (which is absent),
so it is not true of every list that only the first item of a category
determines the kept value. -/
theorem C2_counterexample :
    (normalizeItems [⟨some "candles", none, none⟩,
                     ⟨some "candles", some "Candle lighting: 8:00pm", none⟩]).candle
        = some "8:00pm"
      ∧ candlesExtract none = none := by
  exact ⟨rfl, rfl⟩

/-- Claim C2 (amended): the normalizer is a single in-order pass in
which later items of an already-filled category are ignored — once a
candle-lighting, havdalah or parsha value has been stored it never
changes, whatever duplicate or out-of-order entries follow — and given
two "candles" items where the first's title is present, only the
first's extracted value is kept. -/
theorem C2_first_match_wins :
    (∀ (st : NormState) (l : List Item), st.candle ≠ none →
        (l.foldl processItem st).candle = st.candle) ∧
    (∀ (st : NormState) (l : List Item), st.havdalah ≠ none →
        (l.foldl processItem st).havdalah = st.havdalah) ∧
    (∀ (st : NormState) (l : List Item), st.parsha ≠ none →
        (l.foldl processItem st).parsha = st.parsha) ∧
    (∀ (t : String) (rest : List Item),
        (normalizeItems (⟨some "candles", some t, none⟩ :: rest)).candle
          = candlesExtract (some t)) := by
  refine ⟨fun st l h => foldl_candle_stable l st h,
          fun st l h => foldl_havdalah_stable l st h,
          fun st l h => foldl_parsha_stable l st h,
          fun t rest => ?_⟩
  have hstep : (processItem initState ⟨some "candles", some t, none⟩).candle
      = candlesExtract (some t) :=
    processItem_fills_candle initState ⟨some "candles", some t, none⟩ rfl rfl
  rw [normalizeItems, List.foldl_cons,
    foldl_candle_stable rest _ (by rw [hstep]; exact candlesExtract_ne_none t), hstep]

/-- Claim C2 witness: the first conjunct applied to a filled state and
a concrete singleton list. -/
theorem C2_first_match_wins_witness :
    (([⟨some "candles", some "Candle lighting: 9:00pm", none⟩] : List Item).foldl
        processItem ⟨some "7:01pm", none, none⟩).candle = some "7:01pm" :=
  C2_first_match_wins.1 ⟨some "7:01pm", none, none⟩ _ (by simp)

/-- Claim C9: the first-match guard tests whether a value has been
stored, not whether the category was seen: a "candles" item with an
absent title leaves candle-lighting absent, and a later "candles"
item's title is then extracted and stored. -/
theorem C9_guard_tests_value :
    (∀ (st : NormState) (it : Item), st.candle = none → it.category = some "candles" →
        it.title = none → (processItem st it).candle = none) ∧
    (∀ (t : String) (rest : List Item),
        (normalizeItems (⟨some "candles", none, none⟩ ::
                         ⟨some "candles", some t, none⟩ :: rest)).candle
          = candlesExtract (some t)) := by
  constructor
  · intro st it hcnd hcat hti
    rw [processItem_fills_candle st it hcat hcnd, hti]
    rfl
  · intro t rest
    have h0 : processItem initState ⟨some "candles", none, none⟩ = initState := rfl
    have hstep : (processItem initState ⟨some "candles", some t, none⟩).candle
        = candlesExtract (some t) :=
      processItem_fills_candle initState ⟨some "candles", some t, none⟩ rfl rfl
    rw [normalizeItems, List.foldl_cons, h0, List.foldl_cons,
      foldl_candle_stable rest _ (by rw [hstep]; exact candlesExtract_ne_none t), hstep]

/-- Claim C9 witness: the guard conjunct applied at a concrete state
and item. -/
theorem C9_guard_tests_value_witness :
    (processItem ⟨none, some "x", none⟩ ⟨some "candles", none, none⟩).candle = none :=
  C9_guard_tests_value.1 ⟨none, some "x", none⟩ ⟨some "candles", none, none⟩ rfl rfl rfl

theorem havdalahStep_fills (st : NormState) (it : Item)
    (hcat : it.category = some "havdalah") (hcnd : st.havdalah = none) :
    (havdalahStep st it).havdalah = havdalahExtract it.title := by
  unfold havdalahStep havdalahExtract
  rw [if_pos ⟨hcat, hcnd⟩]
  cases it.title with
  | none => exact hcnd
  | some hv =>
      by_cases hcond : (pyTruthy hv && pyContainsColon hv) = true
      · simp [hcond]
      · simp [hcond]
        exact hcnd

/-- Claim C3 (counterexample): a "havdalah" item whose title has no
colon stores nothing — havdalah stays absent — contradicting the claim
that a colon-free title is stored unchanged, as happens for candles. -/
theorem C3_counterexample :
    (normalizeItems [⟨some "havdalah", some "nocolon", none⟩]).havdalah = none := by
  rfl

/-- Claim C3 (amended): for a "havdalah" item encountered while
havdalah is absent, a value is stored only when the title is present,
non-empty and contains a colon, and then it is the substring after the
first colon trimmed of surrounding whitespace; otherwise havdalah
remains absent after that item (the candles-branch fallback of storing
a colon-free title unchanged is not applied). -/
theorem C3_havdalah_extraction (st : NormState) (it : Item)
    (hcat : it.category = some "havdalah") (hcnd : st.havdalah = none) :
    (processItem st it).havdalah = havdalahExtract it.title := by
  unfold processItem
  rw [parashatStep_havdalah]
  exact havdalahStep_fills (candlesStep st it) it hcat
    (by rw [candlesStep_havdalah]; exact hcnd)

/-- Claim C3 witness: the extraction applied at a concrete colon-bearing
havdalah item. -/
theorem C3_havdalah_extraction_witness :
    (processItem initState ⟨some "havdalah", some "Havdalah: 8:15pm", none⟩).havdalah
      = some "8:15pm" := by
  rw [C3_havdalah_extraction initState ⟨some "havdalah", some "Havdalah: 8:15pm", none⟩ rfl rfl]
  rfl

theorem pyTruthy_of_containsColon (t : String) (h : pyContainsColon t = true) :
    pyTruthy t = true := by
  unfold pyContainsColon at h
  unfold pyTruthy
  cases hd : t.data with
  | nil => rw [hd] at h; simp at h
  | cons c cs => rfl

/-- Claim C4: for a "candles" item encountered while candle-lighting is
absent: a title containing a colon stores the substring after the first
colon trimmed of surrounding whitespace; a colon-free title is stored
unchanged; an absent title leaves candle-lighting absent. -/
theorem C4_candles_extraction (st : NormState) (it : Item)
    (hcat : it.category = some "candles") (hcnd : st.candle = none) :
    (processItem st it).candle =
      match it.title with
      | none => none
      | some t => if pyContainsColon t then some (pyStrip (afterFirstColon t)) else some t := by
  rw [processItem_fills_candle st it hcat hcnd]
  cases it.title with
  | none => rfl
  | some t =>
      by_cases hcol : pyContainsColon t = true
      · simp [candlesExtract, pyTruthy_of_containsColon t hcol, hcol]
      · simp [candlesExtract, hcol]

/-- Claim C4 witness: a colon-free title is kept unchanged, applied at
a concrete item. -/
theorem C4_candles_extraction_witness :
    (processItem initState ⟨some "candles", some "CandleLighting7pm", none⟩).candle
      = some "CandleLighting7pm" := by
  rw [C4_candles_extraction initState ⟨some "candles", some "CandleLighting7pm", none⟩ rfl rfl]
  rfl

theorem parashatStep_fills (st : NormState) (it : Item)
    (hcat : it.category = some "parashat") (hcnd : st.parsha = none) :
    (parashatStep st it).parsha = pyOr it.hebrew it.title := by
  unfold parashatStep
  rw [if_pos ⟨hcat, hcnd⟩]

theorem processItem_fills_parsha (st : NormState) (it : Item)
    (hcat : it.category = some "parashat") (hcnd : st.parsha = none) :
    (processItem st it).parsha = pyOr it.hebrew it.title := by
  unfold processItem
  exact parashatStep_fills (havdalahStep (candlesStep st it) it) it hcat
    (by rw [havdalahStep_parsha, candlesStep_parsha]; exact hcnd)

/-- Claim C10: for a "parashat" item whose hebrew field is present but
equal to the empty string, the normalizer does not prefer the hebrew
label; it falls back to the item's title — selection is by truthiness
of the hebrew value, not by field presence. -/
theorem C10_empty_hebrew_falls_back (st : NormState) (it : Item)
    (hcnd : st.parsha = none) (hcat : it.category = some "parashat")
    (hheb : it.hebrew = some "") :
    (processItem st it).parsha = it.title := by
  rw [processItem_fills_parsha st it hcat hcnd, hheb]
  rfl

/-- Claim C10 witness: empty hebrew label falls back to the title at a
concrete item. -/
theorem C10_empty_hebrew_falls_back_witness :
    (processItem initState ⟨some "parashat", some "Parshat Noach", some ""⟩).parsha
      = some "Parshat Noach" := by
  rw [C10_empty_hebrew_falls_back initState
    ⟨some "parashat", some "Parshat Noach", some ""⟩ rfl rfl rfl]

/-- Claim C5 (counterexample): when the single upstream call raises on
a timeout or network failure, the client's result is not the 502
"Upstream provider error" used for non-success statuses; the transport
exception escapes unconverted. -/
theorem C5_counterexample :
    fetch_shabbat_times_from_hebcal
        ⟨"london", "London", "UK", 515072, -1276, "Europe/London"⟩ "2026-10-12" (.error ())
      = .error PyError.requestException
    ∧ fetch_shabbat_times_from_hebcal
        ⟨"london", "London", "UK", 515072, -1276, "Europe/London"⟩ "2026-10-12" (.error ())
      ≠ .error (PyError.httpException 502 "Upstream provider error") := by
  constructor
  · rfl
  · intro hEq
    have h2 : (Except.error PyError.requestException : Except PyError ShabbatTimes)
        = .error (PyError.httpException 502 "Upstream provider error") := hEq
    exact PyError.noConfusion (Except.error.inj h2)

/-- Claim C5 (amended): on timeout or network/transport failure the
upstream client does not fail with the UpstreamError used for
non-success statuses; `requests.get` is wrapped in no `try`, so the
transport exception propagates as an unhandled fault, for every city
and date. -/
theorem C5_transport_error_uncaught (city : City) (today : String) :
    fetch_shabbat_times_from_hebcal city today (.error ())
      = .error PyError.requestException := rfl

theorem fetch_non_success (c : City) (today : String) (r : Response)
    (hstatus : r.status_code ≠ 200) :
    fetch_shabbat_times_from_hebcal c today (.ok r)
      = .error (PyError.httpException 502 "Upstream provider error") := by
  simp only [fetch_shabbat_times_from_hebcal]
  rw [if_pos hstatus]

/-- Claim C6: a non-success upstream status makes GET /api/shabbat for
a known city fail with the 502 "Upstream provider error", and exactly
one outbound upstream call is made, with no retry. -/
theorem C6_upstream_non_success (slug today : String) (c : City) (r : Response)
    (hfind : findCity slug = some c) (hstatus : r.status_code ≠ 200) :
    get_shabbat_times slug today (.ok r)
      = (.error (PyError.httpException 502 "Upstream provider error"), 1) := by
  unfold get_shabbat_times
  rw [hfind]
  show (fetch_shabbat_times_from_hebcal c today (.ok r), 1) = _
  rw [fetch_non_success c today r hstatus]

/-- Claim C6 witness: upstream status 500 on the london slug yields the
502 error with one upstream call. -/
theorem C6_upstream_non_success_witness :
    get_shabbat_times "london" "2026-10-12" (.ok ⟨500, ⟨none⟩⟩)
      = (.error (PyError.httpException 502 "Upstream provider error"), 1) :=
  C6_upstream_non_success "london" "2026-10-12"
    ⟨"london", "London", "UK", 515072, -1276, "Europe/London"⟩ ⟨500, ⟨none⟩⟩
    (by rfl) (by decide)

/-- Claim C7: a slug matching no catalog City yields the 404 "City not
found" with zero outbound upstream calls, and every slug in the catalog
resolves to its matching City. -/
theorem C7_city_lookup :
    (∀ (slug today : String) (resp : Except Unit Response),
        (∀ c ∈ CITIES, c.slug ≠ slug) →
        get_shabbat_times slug today resp
          = (.error (PyError.httpException 404 "City not found"), 0)) ∧
    (∀ c ∈ CITIES, findCity c.slug = some c) := by
  constructor
  · intro slug today resp h
    unfold get_shabbat_times
    have hf : findCity slug = none := by
      unfold findCity
      rw [List.find?_eq_none]
      intro c hc
      simpa using h c hc
    rw [hf]
  · decide

/-- Claim C7 witness: the unknown slug "atlantis" yields the 404 with
no upstream call. -/
theorem C7_city_lookup_witness :
    get_shabbat_times "atlantis" "2026-10-12" (.ok ⟨200, ⟨none⟩⟩)
      = (.error (PyError.httpException 404 "City not found"), 0) :=
  C7_city_lookup.1 "atlantis" "2026-10-12" (.ok ⟨200, ⟨none⟩⟩) (by decide)

/-- Claim C8: the catalog served by GET /api/cities has exactly 20
cities in the fixed declared order, slugs are unique, and slug lookup
is exact-match and case-sensitive: "London" and "LONDON" do not resolve
while "london" does. -/
theorem C8_catalog_invariants :
    list_cities = CITIES ∧
    list_cities.length = 20 ∧
    list_cities.map City.slug =
      ["new-york", "los-angeles", "miami", "london", "paris", "jerusalem",
       "tel-aviv", "toronto", "montreal", "sydney", "melbourne",
       "johannesburg", "mexico-city", "buenos-aires", "sao-paulo", "madrid",
       "rome", "moscow", "singapore", "hong-kong"] ∧
    (list_cities.map City.slug).Nodup ∧
    findCity "London" = none ∧
    findCity "LONDON" = none ∧
    findCity "london" = some ⟨"london", "London", "UK", 515072, -1276, "Europe/London"⟩ := by
  exact ⟨rfl, rfl, rfl, by decide, rfl, rfl, rfl⟩

end ShabbatAPI
